import Mathlib

/-!
Shallow embedding of `liblights/lights.c` (Sony falconss lights HAL) and
verification of its specification.

Modelling conventions:
* `light_state_t` mirrors the C struct fields used by this module; the 32-bit
  packed `color` is a `Nat` (all bit operations mask explicitly, as the C does).
* System properties are an environment `props : String → String`; an absent
  property reads as `""`, exactly what `property_get(key, buf, "")` yields.
* Device-file I/O is split in two layers: `lights_set_shared_locked` returns
  the sequence of `(path, value)` write calls the C code issues, and
  `lights_write_int` / `lights_run_writes` interpret such calls against a file
  system model `FS`, threading the writer's `static int already_warned` flag
  and the log of emitted warnings through `WriterState`.
* The `barled == 2` branch of `lights_set_shared_locked` is written in the C
  source as `elif (barled == 2) { red = 0 green = 0 ... }` — not valid C
  syntax; it is embedded here under its evident reading as an `else if` chain
  with the three zero assignments, and `rgb` computed from those zeroed
  locals, exactly as the source text has it.
-/

/-- Flash modes of `light_state_t` (`LIGHT_FLASH_NONE/TIMED/HARDWARE`). -/
inductive LightFlash where
  | none
  | timed
  | hardware
deriving DecidableEq

/-- The fields of `struct light_state_t` this module reads: the packed
32-bit color (alpha byte, red, green, blue) and the flash parameters. -/
structure light_state_t where
  color : Nat
  flashMode : LightFlash
  flashOnMS : Int
  flashOffMS : Int
deriving DecidableEq

/-- Path constant `LCD_FILE` from the source. -/
def LCD_FILE : String := "/sys/class/leds/lcd-backlight/brightness"

/-- Path constant `SNS_LED_FILE` from the source. -/
def SNS_LED_FILE : String := "/sys/class/leds/lm3533-light-sns/rgb_brightness"

/-- Path constant `RED_LED_FILE` from the source. -/
def RED_LED_FILE : String := "/sys/class/leds/red/brightness"

/-- Path constant `GREEN_LED_FILE` from the source. -/
def GREEN_LED_FILE : String := "/sys/class/leds/green/brightness"

/-- Path constant `BLUE_LED_FILE` from the source. -/
def BLUE_LED_FILE : String := "/sys/class/leds/notification/brightness"

/-- Path constant `RED_BLINK_FILE` from the source. -/
def RED_BLINK_FILE : String := "/sys/class/leds/red/blink"

/-- Embedding of `lights_property_get_int(key, default_value)`.  `buf` is the
string `property_get` produced for the key: an absent key (or the C's NULL
key, which returns before reading) yields `buf = ""` and hence the default.
`buf.data.head!` models the C's `buf[0]` read on the `len == 1` path. -/
def lights_property_get_int (buf : String) (default_value : Int) : Int :=
  let len := buf.length
  if len = 1 then
    let ch := buf.data.head!
    if ch = '0' ∨ ch = 'n' then 0
    else if ch = '1' ∨ ch = 'y' then 1
    else if ch = '2' ∨ ch = 'o' then 2
    else 1
  else if 1 < len then
    if buf = "no" ∨ buf = "false" ∨ buf = "off" ∨ buf = "disable" then 0
    else if buf = "yes" ∨ buf = "true" ∨ buf = "on" ∨ buf = "enable" then 1
    else if buf = "only" then 2
    else 1
  else default_value

/-- Embedding of `lights_is_lit`: the C function returns the `int`
`state->color & 0x00FFFFFF`, used by callers as a truth value. -/
def lights_is_lit (state : light_state_t) : Nat :=
  state.color &&& 0x00FFFFFF

/-- Embedding of `lights_rgb_to_brightness`: masks the color to 24 bits and
takes the weighted sum `(77*R + 150*G + 29*B) >> 8`. -/
def lights_rgb_to_brightness (state : light_state_t) : Nat :=
  let color := state.color &&& 0x00FFFFFF
  ((77 * ((color >>> 16) &&& 0x00FF)) +
      (150 * ((color >>> 8) &&& 0x00FF)) + (29 * (color &&& 0x00FF))) >>> 8

/-- Embedding of `lights_set_shared_locked`: computes the per-pass channel
values and emits the list of `lights_write_int` calls the pass performs, in
order.  The property environment is read inside the call, as the C reads
`sys.lights.barled` on every pass. -/
def lights_set_shared_locked (props : String → String) (state : light_state_t) :
    List (String × Nat) :=
  let barled := lights_property_get_int (props "sys.lights.barled") 1
  let onMS : Int :=
    match state.flashMode with
    | LightFlash.timed => state.flashOnMS
    | _ => 0
  let offMS : Int :=
    match state.flashMode with
    | LightFlash.timed => state.flashOffMS
    | _ => 0
  let rgbw : Nat × Nat × Nat × Nat :=
    if barled = 1 then
      let red := (state.color >>> 16) &&& 0x00FF
      let green := (state.color >>> 8) &&& 0x00FF
      let blue := state.color &&& 0x00FF
      (red, green, blue,
        ((red &&& 0x00FF) <<< 16) ||| ((green &&& 0x00FF) <<< 8) ||| (blue &&& 0x00FF))
    else if barled = 2 then
      let red := 0
      let green := 0
      let blue := 0
      (red, green, blue,
        ((red &&& 0x00FF) <<< 16) ||| ((green &&& 0x00FF) <<< 8) ||| (blue &&& 0x00FF))
    else
      let red := (state.color >>> 16) &&& 0x00FF
      let green := (state.color >>> 8) &&& 0x00FF
      let blue := state.color &&& 0x00FF
      (red, green, blue, 0)
  let red := rgbw.1
  let green := rgbw.2.1
  let blue := rgbw.2.2.1
  let rgb := rgbw.2.2.2
  let blink := if 0 < onMS ∧ 0 < offMS then 1 else 0
  if blink ≠ 0 then
    if red ≠ 0 then [(RED_BLINK_FILE, blink)] else []
  else
    [(RED_LED_FILE, red), (GREEN_LED_FILE, green), (BLUE_LED_FILE, blue),
      (SNS_LED_FILE, rgb)]

/-- The shared arbitration globals `g_notification`, `g_battery`,
`g_attention`, all mutated under `g_lock`. -/
structure SharedState where
  g_notification : light_state_t
  g_battery : light_state_t
  g_attention : Int
deriving DecidableEq

/-- Embedding of `lights_handle_shared_locked`: battery wins the shared LED
iff its color is lit, otherwise notification is rendered. -/
def lights_handle_shared_locked (props : String → String) (st : SharedState) :
    List (String × Nat) :=
  if lights_is_lit st.g_battery ≠ 0 then
    lights_set_shared_locked props st.g_battery
  else
    lights_set_shared_locked props st.g_notification

/-- File-system model for `lights_write_int`: `openErr path = some e` means
`open(path, O_RDWR)` fails with `errno = e`; `writeErr path = some e` means
the open succeeds but the `write` returns `-1` with `errno = e`. -/
structure FS where
  openErr : String → Option Nat
  writeErr : String → Option Nat

/-- Process-wide state of `lights_write_int`: the single
`static int already_warned` flag, plus the log of `ALOGE` open-failure
messages emitted so far (recorded by path). -/
structure WriterState where
  already_warned : Bool
  log : List String
deriving DecidableEq

/-- Embedding of `lights_write_int(path, value)`: on a successful open it
returns `0`, or `-errno` if the `write` fails; on an open failure it logs
once — guarded by the single `already_warned` flag, shared by all paths —
and returns `-errno`. -/
def lights_write_int (fs : FS) (ws : WriterState) (path : String) (value : Nat) :
    Int × WriterState :=
  match fs.openErr path with
  | Option.some e =>
      if ws.already_warned then (-(e : Int), ws)
      else (-(e : Int), { already_warned := true, log := ws.log ++ [path] })
  | Option.none =>
      match fs.writeErr path with
      | Option.some e => (-(e : Int), ws)
      | Option.none => (0, ws)

/-- Interprets a sequence of write calls (as issued by
`lights_set_shared_locked`) against the file system, discarding each call's
return value exactly as the C code does inside the arbiter. -/
def lights_run_writes (fs : FS) (ws : WriterState) (calls : List (String × Nat)) :
    WriterState :=
  calls.foldl (fun w c => (lights_write_int fs w c.1 c.2).2) ws

/-- Embedding of `lights_set_backlight`: writes the luma brightness to
`LCD_FILE` and returns `err`, the result of that `lights_write_int` call. -/
def lights_set_backlight (fs : FS) (ws : WriterState) (state : light_state_t) :
    Int × WriterState :=
  let brightness := lights_rgb_to_brightness state
  let r := lights_write_int fs ws LCD_FILE brightness
  (r.1, r.2)

/-- Embedding of `lights_set_battery`: stores the state into `g_battery`,
re-runs shared arbitration, and returns `0`. -/
def lights_set_battery (props : String → String) (fs : FS) (st : SharedState)
    (ws : WriterState) (state : light_state_t) : Int × SharedState × WriterState :=
  let st2 := { st with g_battery := state }
  (0, st2, lights_run_writes fs ws (lights_handle_shared_locked props st2))

/-- Embedding of `lights_set_notifications`: stores the state into
`g_notification`, re-runs shared arbitration, and returns `0`. -/
def lights_set_notifications (props : String → String) (fs : FS) (st : SharedState)
    (ws : WriterState) (state : light_state_t) : Int × SharedState × WriterState :=
  let st2 := { st with g_notification := state }
  (0, st2, lights_run_writes fs ws (lights_handle_shared_locked props st2))

/-- Embedding of `lights_set_attention`: updates `g_attention` for HARDWARE
and NONE flash modes (other modes leave it unchanged), re-runs shared
arbitration, and returns `0`. -/
def lights_set_attention (props : String → String) (fs : FS) (st : SharedState)
    (ws : WriterState) (state : light_state_t) : Int × SharedState × WriterState :=
  let st2 :=
    if state.flashMode = LightFlash.hardware then { st with g_attention := state.flashOnMS }
    else if state.flashMode = LightFlash.none then { st with g_attention := 0 }
    else st
  (0, st2, lights_run_writes fs ws (lights_handle_shared_locked props st2))

/-- Helper: masking with `0xFF` is reduction mod 256, and the shifts are
divisions, so channel extraction is plain arithmetic. -/
lemma and_255_eq_mod (n : Nat) : n &&& 0xFF = n % 256 := by
  have h : (0xFF : Nat) = 2 ^ 8 - 1 := by norm_num
  rw [h, Nat.and_pow_two_sub_one_eq_mod]

/-- Helper: masking with `0x00FFFFFF` is reduction mod `2^24`. -/
lemma and_mask24_eq_mod (n : Nat) : n &&& 0x00FFFFFF = n % 16777216 := by
  have h : (0x00FFFFFF : Nat) = 2 ^ 24 - 1 := by norm_num
  rw [h, Nat.and_pow_two_sub_one_eq_mod]

/-- Helper: the three channel bytes of a 24-bit-masked color agree with the
channel bytes of the raw color. -/
lemma masked_channels (c : Nat) :
    ((c &&& 0x00FFFFFF) >>> 16) &&& 0xFF = (c >>> 16) &&& 0xFF ∧
    ((c &&& 0x00FFFFFF) >>> 8) &&& 0xFF = (c >>> 8) &&& 0xFF ∧
    (c &&& 0x00FFFFFF) &&& 0xFF = c &&& 0xFF := by
  simp only [and_mask24_eq_mod, and_255_eq_mod, Nat.shiftRight_eq_div_pow]
  norm_num
  omega

/-- Helper: an unlit color (low 24 bits zero) has all three channel bytes
zero. -/
lemma unlit_channels {c : Nat} (h : c &&& 0x00FFFFFF = 0) :
    (c >>> 16) &&& 0xFF = 0 ∧ (c >>> 8) &&& 0xFF = 0 ∧ c &&& 0xFF = 0 := by
  rw [and_mask24_eq_mod] at h
  simp only [and_255_eq_mod, Nat.shiftRight_eq_div_pow]
  norm_num
  omega

/-- C6: the backlight brightness of a state is exactly
`(77*R + 150*G + 29*B) >> 8` over the color's channel bytes, it never
exceeds 255 (for any input, in particular every 24-bit one), it depends only
on the color, and the all-white and all-black colors map to 255 and 0. -/
theorem rgb_to_brightness_formula_and_bounds (state : light_state_t) :
    lights_rgb_to_brightness state =
      ((77 * ((state.color >>> 16) &&& 0xFF)) + (150 * ((state.color >>> 8) &&& 0xFF)) +
        (29 * (state.color &&& 0xFF))) >>> 8 ∧
    lights_rgb_to_brightness state ≤ 255 ∧
    (∀ t : light_state_t, t.color = state.color →
      lights_rgb_to_brightness t = lights_rgb_to_brightness state) ∧
    lights_rgb_to_brightness ⟨0xFFFFFF, LightFlash.none, 0, 0⟩ = 255 ∧
    lights_rgb_to_brightness ⟨0, LightFlash.none, 0, 0⟩ = 0 := by
  obtain ⟨h1, h2, h3⟩ := masked_channels state.color
  refine ⟨?_, ?_, ?_, by decide, by decide⟩
  · simp only [lights_rgb_to_brightness, h1, h2, h3]
  · simp only [lights_rgb_to_brightness, and_255_eq_mod, and_mask24_eq_mod,
      Nat.shiftRight_eq_div_pow]
    norm_num
    omega
  · intro t ht
    simp only [lights_rgb_to_brightness, ht]

/-- C5: configuration-flag parsing. An empty (or absent) value yields the
default; a single character maps '0'/'n' to 0, '1'/'y' to 1, '2'/'o' to 2
and anything else to 1; a longer value maps exactly "no"/"false"/"off"/
"disable" to 0, exactly "yes"/"true"/"on"/"enable" to 1, exactly "only" to
2, and any other string (such as "On") to 1. -/
theorem property_get_int_parsing (d : Int) :
    lights_property_get_int "" d = d ∧
    (∀ c : Char, lights_property_get_int (String.mk [c]) d =
      if c = '0' ∨ c = 'n' then 0
      else if c = '1' ∨ c = 'y' then 1
      else if c = '2' ∨ c = 'o' then 2
      else 1) ∧
    (∀ s : String, 1 < s.length →
      lights_property_get_int s d =
        if s = "no" ∨ s = "false" ∨ s = "off" ∨ s = "disable" then 0
        else if s = "yes" ∨ s = "true" ∨ s = "on" ∨ s = "enable" then 1
        else if s = "only" then 2
        else 1) ∧
    lights_property_get_int "On" d = 1 := by
  have multi : ∀ s : String, 1 < s.length →
      lights_property_get_int s d =
        if s = "no" ∨ s = "false" ∨ s = "off" ∨ s = "disable" then 0
        else if s = "yes" ∨ s = "true" ∨ s = "on" ∨ s = "enable" then 1
        else if s = "only" then 2
        else 1 := by
    intro s hs
    have h1 : s.length ≠ 1 := by omega
    simp only [lights_property_get_int, h1, if_false, hs, if_true]
  refine ⟨by simp [lights_property_get_int], ?_, multi, ?_⟩
  · intro c
    simp [lights_property_get_int, String.length]
  · rw [multi "On" (by decide)]
    decide

/-- Witness for C5 at concrete inputs. -/
theorem property_get_int_parsing_witness :
    lights_property_get_int "off" 7 = 0 ∧ lights_property_get_int "" 7 = 7 ∧
    lights_property_get_int "On" 7 = 1 := by
  have h := property_get_int_parsing 7
  refine ⟨?_, h.1, h.2.2.2⟩
  rw [h.2.2.1 "off" (by decide)]
  decide

/-- Witness for C6 at a concrete input. -/
theorem rgb_to_brightness_witness :
    lights_rgb_to_brightness ⟨0x00FF0000, LightFlash.none, 0, 0⟩ = 76 ∧
    lights_rgb_to_brightness ⟨0x00FF0000, LightFlash.none, 0, 0⟩ ≤ 255 ∧
    lights_rgb_to_brightness ⟨0x00FF0000, LightFlash.timed, 500, 500⟩ =
      lights_rgb_to_brightness ⟨0x00FF0000, LightFlash.none, 0, 0⟩ := by
  have h := rgb_to_brightness_formula_and_bounds ⟨0x00FF0000, LightFlash.none, 0, 0⟩
  exact ⟨by decide, h.2.1, h.2.2.1 ⟨0x00FF0000, LightFlash.timed, 500, 500⟩ rfl⟩

/-- C1: when the battery state is lit, the arbitration pass renders the
battery state — its write sequence is exactly the one computed from
`g_battery` — and the pass is unchanged by any replacement of the
notification state, so the notification color is never rendered. -/
theorem battery_priority (props : String → String) (st : SharedState)
    (h : lights_is_lit st.g_battery ≠ 0) :
    lights_handle_shared_locked props st = lights_set_shared_locked props st.g_battery ∧
    ∀ n : light_state_t,
      lights_handle_shared_locked props { st with g_notification := n } =
        lights_set_shared_locked props st.g_battery := by
  constructor
  · simp only [lights_handle_shared_locked]
    rw [if_pos h]
  · intro n
    simp only [lights_handle_shared_locked]
    rw [if_pos h]

/-- Witness for C1: battery lit red, notification lit blue — the pass is the
one computed from the battery state. -/
theorem battery_priority_witness :
    lights_handle_shared_locked (fun _ => "")
        ⟨⟨0xFF, LightFlash.none, 0, 0⟩, ⟨0xFF0000, LightFlash.none, 0, 0⟩, 0⟩ =
      lights_set_shared_locked (fun _ => "") ⟨0xFF0000, LightFlash.none, 0, 0⟩ :=
  (battery_priority (fun _ => "")
    ⟨⟨0xFF, LightFlash.none, 0, 0⟩, ⟨0xFF0000, LightFlash.none, 0, 0⟩, 0⟩ (by decide)).1

/-- C4: when the battery state is unlit, the arbitration pass renders the
notification state, with no hypothesis on whether the notification is lit;
and when the notification is also unlit every device write the pass issues
carries the value 0 (the steady pass writes 0 to all four files, and a
blinking pass issues no write since its red channel is 0). -/
theorem notification_fallback (props : String → String) (st : SharedState)
    (h : lights_is_lit st.g_battery = 0) :
    lights_handle_shared_locked props st =
      lights_set_shared_locked props st.g_notification ∧
    (lights_is_lit st.g_notification = 0 →
      ∀ w ∈ lights_handle_shared_locked props st, w.2 = 0) := by
  have hsel : lights_handle_shared_locked props st =
      lights_set_shared_locked props st.g_notification := by
    simp only [lights_handle_shared_locked, h, ne_eq, not_true_eq_false, if_false]
  refine ⟨hsel, ?_⟩
  intro hn w hw
  rw [hsel] at hw
  obtain ⟨hr, hg, hb⟩ := unlit_channels (c := st.g_notification.color) hn
  simp only [lights_set_shared_locked, hr, hg, hb, ite_self, Nat.zero_and,
    Nat.zero_shiftLeft, Nat.zero_or, Nat.or_zero, ne_eq, not_true_eq_false,
    if_false] at hw
  split at hw
  · simp at hw
  · fin_cases hw <;> rfl

/-- Witness for C4: battery unlit, notification unlit and blinking — the
notification state is selected and every issued write is 0. -/
theorem notification_fallback_witness :
    lights_handle_shared_locked (fun _ => "")
        ⟨⟨0, LightFlash.timed, 500, 500⟩, ⟨0xAB000000, LightFlash.none, 0, 0⟩, 0⟩ =
      lights_set_shared_locked (fun _ => "") ⟨0, LightFlash.timed, 500, 500⟩ ∧
    ∀ w ∈ lights_handle_shared_locked (fun _ => "")
        ⟨⟨0, LightFlash.timed, 500, 500⟩, ⟨0xAB000000, LightFlash.none, 0, 0⟩, 0⟩,
      w.2 = 0 := by
  have h := notification_fallback (fun _ => "")
    ⟨⟨0, LightFlash.timed, 500, 500⟩, ⟨0xAB000000, LightFlash.none, 0, 0⟩, 0⟩ (by decide)
  exact ⟨h.1, h.2 (by decide)⟩

/-- Helper: evaluation of a blinking arbitration pass.  When the active
state has TIMED flash with positive on/off durations, the pass writes the
blink flag iff the per-pass red channel (zero when `barled` reads 2,
otherwise the color's red byte) is nonzero, and writes nothing otherwise. -/
lemma set_shared_blink_eval (props : String → String) (state : light_state_t)
    (hm : state.flashMode = LightFlash.timed) (hon : 0 < state.flashOnMS)
    (hoff : 0 < state.flashOffMS) :
    lights_set_shared_locked props state =
      if (if lights_property_get_int (props "sys.lights.barled") 1 = 2 then 0
          else (state.color >>> 16) &&& 0xFF) ≠ 0
      then [(RED_BLINK_FILE, 1)] else [] := by
  by_cases hb1 : lights_property_get_int (props "sys.lights.barled") 1 = 1 <;>
    by_cases hb2 : lights_property_get_int (props "sys.lights.barled") 1 = 2 <;>
    simp only [lights_set_shared_locked, hm, hb1, hb2, hon, hoff, and_self,
      if_true, if_false, ite_true, ite_false, reduceIte] <;>
    norm_num

/-- Helper: evaluation of a non-blinking arbitration pass.  The pass always
writes the four brightness files, in the fixed order red, green, blue,
ambient. -/
lemma set_shared_steady_paths (props : String → String) (state : light_state_t)
    (h : ¬(state.flashMode = LightFlash.timed ∧ 0 < state.flashOnMS ∧
        0 < state.flashOffMS)) :
    (lights_set_shared_locked props state).map Prod.fst =
      [RED_LED_FILE, GREEN_LED_FILE, BLUE_LED_FILE, SNS_LED_FILE] := by
  cases hm : state.flashMode
  case timed =>
    have hc : ¬(0 < state.flashOnMS ∧ 0 < state.flashOffMS) := fun hco => h ⟨hm, hco⟩
    simp [lights_set_shared_locked, hm, hc]
  case none => simp [lights_set_shared_locked, hm]
  case hardware => simp [lights_set_shared_locked, hm]

/-- C7: a blinking pass (TIMED, positive on and off durations) whose
per-pass red channel — the color's red byte, forced to 0 when the flag
reads 2 — is nonzero writes exactly `1` to the blink file and touches none
of the four brightness files; a non-blinking pass writes exactly the four
brightness files red, green, blue, ambient. -/
theorem blink_writes_flag_only (props : String → String) (state : light_state_t) :
    ((state.flashMode = LightFlash.timed ∧ 0 < state.flashOnMS ∧
        0 < state.flashOffMS) →
      (if lights_property_get_int (props "sys.lights.barled") 1 = 2 then 0
        else (state.color >>> 16) &&& 0xFF) ≠ 0 →
      lights_set_shared_locked props state = [(RED_BLINK_FILE, 1)]) ∧
    (¬(state.flashMode = LightFlash.timed ∧ 0 < state.flashOnMS ∧
        0 < state.flashOffMS) →
      (lights_set_shared_locked props state).map Prod.fst =
        [RED_LED_FILE, GREEN_LED_FILE, BLUE_LED_FILE, SNS_LED_FILE]) := by
  constructor
  · intro hblk hred
    rw [set_shared_blink_eval props state hblk.1 hblk.2.1 hblk.2.2, if_pos hred]
  · exact set_shared_steady_paths props state

/-- Witness for C7: a red TIMED blink with the flag unset writes only the
blink flag, and a steady red state writes the four brightness files. -/
theorem blink_writes_flag_only_witness :
    lights_set_shared_locked (fun _ => "") ⟨0xFF0000, LightFlash.timed, 500, 500⟩ =
      [(RED_BLINK_FILE, 1)] ∧
    (lights_set_shared_locked (fun _ => "") ⟨0xFF0000, LightFlash.none, 0, 0⟩).map
        Prod.fst =
      [RED_LED_FILE, GREEN_LED_FILE, BLUE_LED_FILE, SNS_LED_FILE] := by
  constructor
  · exact (blink_writes_flag_only (fun _ => "") ⟨0xFF0000, LightFlash.timed, 500, 500⟩).1
      ⟨rfl, by decide, by decide⟩ (by decide)
  · exact (blink_writes_flag_only (fun _ => "") ⟨0xFF0000, LightFlash.none, 0, 0⟩).2
      (by simp)

/-- C10: a blinking pass (TIMED, positive on and off durations) whose
per-pass red channel is zero — a zero red byte, or any color when the flag
reads 2 — performs no device write at all. -/
theorem blink_zero_red_writes_nothing (props : String → String)
    (state : light_state_t) (hm : state.flashMode = LightFlash.timed)
    (hon : 0 < state.flashOnMS) (hoff : 0 < state.flashOffMS)
    (hred : (if lights_property_get_int (props "sys.lights.barled") 1 = 2 then 0
        else (state.color >>> 16) &&& 0xFF) = 0) :
    lights_set_shared_locked props state = [] := by
  rw [set_shared_blink_eval props state hm hon hoff, if_neg (by simp [hred])]

/-- Witness for C10: a pure-green blink with the flag unset, and a red blink
with the flag set to "2", both write nothing. -/
theorem blink_zero_red_writes_nothing_witness :
    lights_set_shared_locked (fun _ => "") ⟨0x00FF00, LightFlash.timed, 500, 500⟩ =
      [] ∧
    lights_set_shared_locked (fun _ => "2") ⟨0xFF0000, LightFlash.timed, 500, 500⟩ =
      [] := by
  constructor
  · exact blink_zero_red_writes_nothing (fun _ => "")
      ⟨0x00FF00, LightFlash.timed, 500, 500⟩ rfl (by decide) (by decide) (by decide)
  · exact blink_zero_red_writes_nothing (fun _ => "2")
      ⟨0xFF0000, LightFlash.timed, 500, 500⟩ rfl (by decide) (by decide) (by decide)

/-- C9: with a fixed property environment, invoking the notification handler
twice with the identical state yields the same shared arbitration state
after each invocation and issues the same sequence of device-write calls on
both invocations. -/
theorem notifications_idempotent (props : String → String) (fs : FS)
    (st : SharedState) (ws : WriterState) (s : light_state_t) :
    let r1 := lights_set_notifications props fs st ws s
    let r2 := lights_set_notifications props fs r1.2.1 r1.2.2 s
    r1.2.1 = r2.2.1 ∧
    lights_handle_shared_locked props r1.2.1 =
      lights_handle_shared_locked props r2.2.1 := by
  constructor <;> rfl

/-- The file-system model in which every open fails with `errno = 13`
(EACCES) on every path. -/
def fsOpenDenied : FS :=
  { openErr := fun _ => Option.some 13, writeErr := fun _ => Option.none }

/-- The file-system model in which every open fails with `errno = 2`
(ENOENT) on every path. -/
def fsOpenMissing : FS :=
  { openErr := fun _ => Option.some 2, writeErr := fun _ => Option.none }

/-- Counterexample to C3: the backlight handler does not return 0 when the
Device Writer fails — with every open failing with `errno = 13` it returns
the propagated `-13`. -/
theorem backlight_propagates_error_counterexample :
    (lights_set_backlight fsOpenDenied ⟨false, []⟩
        ⟨0xFFFFFF, LightFlash.none, 0, 0⟩).1 = -13 ∧
    (-13 : Int) ≠ 0 := by
  constructor
  · rfl
  · decide

/-- C3 as amended: the battery, notification and attention handlers return 0
for every input and every file-system behaviour, while the backlight handler
propagates its single Device Writer call's failure: an open failure on the
backlight file makes it return the negated errno. -/
theorem handler_return_codes (props : String → String) (fs : FS)
    (st : SharedState) (ws : WriterState) (s : light_state_t) :
    (lights_set_battery props fs st ws s).1 = 0 ∧
    (lights_set_notifications props fs st ws s).1 = 0 ∧
    (lights_set_attention props fs st ws s).1 = 0 ∧
    (∀ e : Nat, fs.openErr LCD_FILE = Option.some e →
      (lights_set_backlight fs ws s).1 = -(e : Int)) := by
  refine ⟨rfl, rfl, rfl, ?_⟩
  intro e he
  simp only [lights_set_backlight, lights_write_int, he]
  split <;> rfl

/-- Witness for the amended C3 at concrete inputs. -/
theorem handler_return_codes_witness :
    (lights_set_battery (fun _ => "") fsOpenDenied
        ⟨⟨0, LightFlash.none, 0, 0⟩, ⟨0, LightFlash.none, 0, 0⟩, 0⟩ ⟨false, []⟩
        ⟨0xFF, LightFlash.none, 0, 0⟩).1 = 0 ∧
    (lights_set_backlight fsOpenDenied ⟨false, []⟩
        ⟨0xFF, LightFlash.none, 0, 0⟩).1 = -13 := by
  have h := handler_return_codes (fun _ => "") fsOpenDenied
    ⟨⟨0, LightFlash.none, 0, 0⟩, ⟨0, LightFlash.none, 0, 0⟩, 0⟩ ⟨false, []⟩
    ⟨0xFF, LightFlash.none, 0, 0⟩
  exact ⟨h.1, h.2.2.2 13 rfl⟩

/-- Counterexample to C8: the open-failure warning is guarded by a single
process-wide flag, not one per path.  With every open failing with
`errno = 2`, a failing write to the red file followed by a failing write to
the green file logs only the first path: the later failure on a different
path is not logged, though both calls return `-2`. -/
theorem write_int_warn_not_per_path_counterexample :
    ((lights_write_int fsOpenMissing
        (lights_write_int fsOpenMissing ⟨false, []⟩ RED_LED_FILE 255).2
        GREEN_LED_FILE 255).2).log = [RED_LED_FILE] ∧
    GREEN_LED_FILE ∉
      ((lights_write_int fsOpenMissing
          (lights_write_int fsOpenMissing ⟨false, []⟩ RED_LED_FILE 255).2
          GREEN_LED_FILE 255).2).log ∧
    (lights_write_int fsOpenMissing ⟨false, []⟩ RED_LED_FILE 255).1 = -2 ∧
    (lights_write_int fsOpenMissing
        (lights_write_int fsOpenMissing ⟨false, []⟩ RED_LED_FILE 255).2
        GREEN_LED_FILE 255).1 = -2 := by
  refine ⟨rfl, ?_, rfl, rfl⟩
  decide

/-- C8 as amended: when the Device Writer fails to open the target path it
returns the OS error code negated, and it logs the failure exactly once per
process lifetime across all paths: the first open failure is logged and sets
the warning flag, and every later open failure — on any path — is
suppressed. -/
theorem write_int_open_failure (fs : FS) (ws : WriterState) (path : String)
    (value : Nat) (e : Nat) (he : fs.openErr path = Option.some e) :
    (lights_write_int fs ws path value).1 = -(e : Int) ∧
    ((lights_write_int fs ws path value).2).already_warned = true ∧
    ((lights_write_int fs ws path value).2).log =
      (if ws.already_warned then ws.log else ws.log ++ [path]) := by
  by_cases hw : ws.already_warned <;>
    simp [lights_write_int, he, hw]

/-- Witness for the amended C8 at a concrete input. -/
theorem write_int_open_failure_witness :
    (lights_write_int fsOpenMissing ⟨false, []⟩ RED_LED_FILE 255).1 = -2 ∧
    ((lights_write_int fsOpenMissing ⟨false, []⟩ RED_LED_FILE 255).2).log =
      [RED_LED_FILE] := by
  have h := write_int_open_failure fsOpenMissing ⟨false, []⟩ RED_LED_FILE 255 2 rfl
  exact ⟨h.1, by rw [h.2.2]; rfl⟩

/-- C2 evaluation at the failing input: with the flag reading "2"
(AMBIENT_ONLY) and a lit red active state, the (repaired) `barled == 2`
branch zeroes the discrete channels and then computes `rgb` from those
zeroed locals, so the pass writes 0 — not the packed 24-bit color
`0xFF0000` — to the ambient file.  The branch is also not valid C as
committed (`elif`, missing semicolons), so it can never have compiled. -/
theorem ambient_only_writes_zero_ambient :
    lights_set_shared_locked (fun _ => "2") ⟨0x00FF0000, LightFlash.none, 0, 0⟩ =
      [(RED_LED_FILE, 0), (GREEN_LED_FILE, 0), (BLUE_LED_FILE, 0),
        (SNS_LED_FILE, 0)] ∧
    (0x00FF0000 : Nat) &&& 0x00FFFFFF = 0xFF0000 ∧
    (0 : Nat) ≠ 0xFF0000 := by
  refine ⟨?_, by decide, by decide⟩
  rfl
